import Mathlib

/-!
Shallow embedding of src/load_nasr_data/load_nasr_data.py.

The script loads NASR CSV files into a database.  We model:
  * YAML values (the result of yaml.safe_load) as the inductive `Yaml`;
  * the pydantic settings classes as structures, and pydantic validation
    (performed by `Configuration(**content)`) as explicit validators;
  * a CSV file, already split by the CSV-dialect collaborator, as a header
    plus a list of rows of raw text cells (pandas is called with dtype=str);
  * the database engine as an opaque sink that either accepts an append
    operation or raises (field `fails`, per table name);
  * a run's observable effects as a list of executed insert operations
    (`InsertOp`) plus a list of log events (`LogEvent`).  The loaders never
    read the database, so each call is modelled as the pair of deltas it
    appends (log events, insert operations); sequencing concatenates deltas.
  * exceptions as `Except String`: a `.error` value is an exception
    propagating out of the modelled code.
-/

namespace LoadNasrData

/-- A YAML value as produced by yaml.safe_load. -/
inductive Yaml where
  | null : Yaml
  | str (s : String) : Yaml
  | bool (b : Bool) : Yaml
  | num (n : Int) : Yaml
  | list (xs : List Yaml) : Yaml
  | map (kvs : List (String × Yaml)) : Yaml

abbrev ColumName := String

abbrev ColumnValue := Yaml

/-- Database connection settings (class DBConnection). -/
structure DBConnection where
  host : String
  database : String
  user : String
  password : String
deriving DecidableEq

/-- Settings for dictionary tables (class DictTableSettings); a row mapping
is an association list from column name to value. -/
structure DictTableSettings where
  name : String
  data : List (List (ColumName × ColumnValue))

/-- Settings for reading CSV files (class CSVSettings). -/
structure CSVSettings where
  encoding : String
  delimiter : String
  quote_char : String
deriving DecidableEq

/-- Settings for processing one NASR CSV file (class DataFileSettings). -/
structure DataFileSettings where
  file_name : String
  table_name : String
  is_spatial : Bool
  columns : List String
deriving DecidableEq

/-- Application configuration (class Configuration); data_dir is a path. -/
structure Configuration where
  nasr_db : DBConnection
  csv_settings : CSVSettings
  data_dir : String
  dict_tables : List DictTableSettings
  data_tables : List DataFileSettings

/-- A CSV file as seen after the dialect-aware read: a header row of column
names and data rows of raw text cells. -/
structure CSVFile where
  header : List String
  rows : List (List String)
deriving DecidableEq

/-- The filesystem: maps a path to the CSV file stored there, if any. -/
abbrev FileSystem := String → Option CSVFile

/-- The database engine (sqlalchemy Engine), modelled as an opaque sink:
`fails t` means an append into table `t` raises an exception. -/
structure Engine where
  fails : String → Bool

/-- Log events emitted by the loading code. -/
inductive LogEvent where
  | inserting (table : String) : LogEvent
  | rowsInserted (table : String) (n : Nat) : LogEvent
  | exceptionLogged (msg : String) : LogEvent
deriving DecidableEq

/-- An insert operation executed against the database sink.  `nonSpatial`
records a DataFrame.to_sql append; `spatial` records a
GeoDataFrame.to_postgis append carrying one point geometry per row (as the
raw longitude/latitude text pair), the CRS string and the chunk size. -/
inductive InsertOp where
  | nonSpatial (table : String) (cols : List String) (rows : List (List Yaml)) : InsertOp
  | spatial (table : String) (cols : List String) (rows : List (List Yaml))
      (geoms : List (String × String)) (crs : String) (chunksize : Nat) : InsertOp

/-- Orchestrator-level events of one run of main. -/
inductive MainEvent where
  | configLoaded : MainEvent
  | engineCreated : MainEvent
  | dictTableLoad (name : String) : MainEvent
  | dataTableLoad (file : String) : MainEvent
deriving DecidableEq

/-- Observable state accumulated by a run: executed inserts and the log. -/
structure RunState where
  ops : List InsertOp
  log : List LogEvent

/-- load_log_decorator: logs the start line, runs the wrapped function,
logs the exception (swallowing it) on failure, or the row count of the
`data` argument on success.  `dataLen` is len(data) for the data passed to
the wrapped call; `func` is the wrapped body's outcome (the inserts it
performs, or the exception it raises). -/
def load_log_decorator (table_name : String) (dataLen : Nat)
    (func : Except String (List InsertOp)) : List LogEvent × List InsertOp :=
  match func with
  | .error e => ([.inserting table_name, .exceptionLogged e], [])
  | .ok ops => ([.inserting table_name, .rowsInserted table_name dataLen], ops)

/-- DataFrame.to_sql(name, con, if_exists="append", index=False): appends
the frame's rows into the table, or raises if the sink fails. -/
def to_sql (eng : Engine) (table : String) (cols : List String)
    (rows : List (List Yaml)) : Except String (List InsertOp) :=
  if eng.fails table then .error ("insert failed: " ++ table)
  else .ok [.nonSpatial table cols rows]

/-- Column labels of pd.DataFrame(records): the union of the records' keys
in order of first appearance. -/
def recordColumns (data : List (List (ColumName × ColumnValue))) : List String :=
  (data.flatMap (fun rec => rec.map Prod.fst)).eraseDups

/-- Cell rows of pd.DataFrame(records): each record's value per column,
null (NaN) when the record lacks the key. -/
def recordRows (cols : List String)
    (data : List (List (ColumName × ColumnValue))) : List (List Yaml) :=
  data.map (fun rec =>
    cols.map (fun c => (((rec.find? (fun p => p.1 == c)).map Prod.snd)).getD Yaml.null))

/-- load_dict_table (decorated with load_log_decorator): builds a DataFrame
from the row mappings and appends it into the table. -/
def load_dict_table (eng : Engine) (table_name : String)
    (data : List (List (ColumName × ColumnValue))) : List LogEvent × List InsertOp :=
  load_log_decorator table_name data.length
    (to_sql eng table_name (recordColumns data) (recordRows (recordColumns data) data))

/-- load_dict_tables: loads every dictionary table in order; each call only
appends effects, so the batch is the concatenation of the per-table deltas. -/
def load_dict_tables (eng : Engine) (dict_tables : List DictTableSettings) :
    List LogEvent × List InsertOp :=
  match dict_tables with
  | [] => ([], [])
  | t :: rest =>
    let d := load_dict_table eng t.name t.data
    let drest := load_dict_tables eng rest
    (d.1 ++ drest.1, d.2 ++ drest.2)

/-- class DataTableLoader. -/
structure DataTableLoader where
  data_dir : String
  csv_settings : CSVSettings
  engine : Engine

/-- The prepared frame: selected columns and raw-text cell rows. -/
structure DataFrame where
  cols : List String
  rows : List (List String)
deriving DecidableEq

/-- Python str.lower(): lowercase every character. -/
def strLower (s : String) : String := String.mk (s.data.map Char.toLower)

/-- Python str.strip(): drop leading and trailing whitespace. -/
def strTrim (s : String) : String :=
  String.mk (((s.data.dropWhile Char.isWhitespace).reverse.dropWhile
    Char.isWhitespace).reverse)

/-- Selection done by pd.read_csv's usecols: keep the cells of a row whose
header entry is among the requested columns (exact, case-sensitive match),
in the file's column order. -/
def selectColumns (header : List String) (columns : List String)
    (row : List String) : List String :=
  ((header.zip row).filter (fun p => columns.contains p.1)).map Prod.snd

/-- DataTableLoader._prepare_data: read data_dir/file_name with the CSV
dialect, restrict to the configured columns via usecols (raising a
ValueError when a requested column is absent from the header, the pandas
behaviour), keep every value as text (dtype=str), strip whitespace from
every cell, and lowercase every column label. -/
def _prepare_data (loader : DataTableLoader) (fs : FileSystem)
    (data_file_setting : DataFileSettings) : Except String DataFrame :=
  match fs (loader.data_dir ++ "/" ++ data_file_setting.file_name) with
  | none => .error ("FileNotFoundError: " ++ data_file_setting.file_name)
  | some csv =>
    if data_file_setting.columns.all (fun c => csv.header.contains c) then
      .ok { cols := (csv.header.filter (fun h => data_file_setting.columns.contains h)).map
                      strLower,
            rows := csv.rows.map (fun r =>
                      (selectColumns csv.header data_file_setting.columns r).map strTrim) }
    else .error "ValueError: Usecols do not match columns"

/-- The values of one column of a frame (attribute access df.c). -/
def colValues (df : DataFrame) (c : String) : List String :=
  df.rows.map (fun r => (((df.cols.zip r).find? (fun p => p.1 == c)).map Prod.snd).getD "")

/-- Drop the named columns from a frame (gdf.drop(columns=...)). -/
def dropColumns (df : DataFrame) (cs : List String) : DataFrame :=
  { cols := df.cols.filter (fun h => !cs.contains h),
    rows := df.rows.map (fun r =>
              ((df.cols.zip r).filter (fun p => !cs.contains p.1)).map Prod.snd) }

/-- GeoDataFrame.to_postgis(name, con, if_exists="append", index=False,
chunksize=10000): appends attributes plus geometry, or raises on sink
failure. -/
def to_postgis (eng : Engine) (table : String) (df : DataFrame)
    (geoms : List (String × String)) (crs : String) (chunksize : Nat) :
    Except String (List InsertOp) :=
  if eng.fails table then .error ("insert failed: " ++ table)
  else .ok [.spatial table df.cols (df.rows.map (fun r => r.map Yaml.str)) geoms crs chunksize]

/-- DataTableLoader._load_non_spatial (decorated): appends the prepared
frame into the table via to_sql. -/
def _load_non_spatial (loader : DataTableLoader) (data : DataFrame)
    (data_file_setting : DataFileSettings) : List LogEvent × List InsertOp :=
  load_log_decorator data_file_setting.table_name data.rows.length
    (to_sql loader.engine data_file_setting.table_name data.cols
      (data.rows.map (fun r => r.map Yaml.str)))

/-- DataTableLoader._load_spatial (decorated): builds one point per row
from data.long_decimal and data.lat_decimal (attribute access raises when a
column is missing), sets crs EPSG:4326, drops the two raw coordinate
columns, and appends via to_postgis chunked at 10000 rows. -/
def _load_spatial (loader : DataTableLoader) (data : DataFrame)
    (data_file_setting : DataFileSettings) : List LogEvent × List InsertOp :=
  load_log_decorator data_file_setting.table_name data.rows.length
    (if data.cols.contains "long_decimal" && data.cols.contains "lat_decimal" then
      to_postgis loader.engine data_file_setting.table_name
        (dropColumns data ["long_decimal", "lat_decimal"])
        ((colValues data "long_decimal").zip (colValues data "lat_decimal"))
        "EPSG:4326" 10000
    else .error "AttributeError: no long_decimal or lat_decimal column")

/-- DataTableLoader.load_table: prepare the data (outside any exception
handler, so a prepare failure propagates to the caller as `.error`), then
branch on is_spatial into the decorated insert paths (whose exceptions the
decorator swallows). -/
def load_table (loader : DataTableLoader) (fs : FileSystem)
    (data_file_setting : DataFileSettings) :
    Except String (List LogEvent × List InsertOp) :=
  match _prepare_data loader fs data_file_setting with
  | .error e => .error e
  | .ok data =>
    if data_file_setting.is_spatial then
      .ok (_load_spatial loader data data_file_setting)
    else
      .ok (_load_non_spatial loader data data_file_setting)

/-- Look up a key in a YAML mapping. -/
def Yaml.lookup (y : Yaml) (k : String) : Option Yaml :=
  match y with
  | .map kvs => (kvs.find? (fun p => p.1 == k)).map Prod.snd
  | _ => none

/-- Pydantic validation of a required str field: present and a string. -/
def Yaml.asStr : Yaml → Except String String
  | .str s => .ok s
  | _ => .error "Input should be a valid string"

/-- Pydantic validation of a required bool field. -/
def Yaml.asBool : Yaml → Except String Bool
  | .bool b => .ok b
  | _ => .error "Input should be a valid boolean"

/-- Pydantic: a required field must be present in the input mapping. -/
def requireField (y : Yaml) (k : String) : Except String Yaml :=
  match y.lookup k with
  | some v => .ok v
  | none => .error ("Field required: " ++ k)

/-- Validate every element of a list, failing on the first invalid one
(pydantic validation of a list field). -/
def mapExcept (f : α → Except String β) : List α → Except String (List β)
  | [] => .ok []
  | x :: xs => do
    let b ← f x
    let bs ← mapExcept f xs
    return b :: bs

/-- Pydantic validation of DBConnection. -/
def validateDBConnection (y : Yaml) : Except String DBConnection := do
  let host ← (← requireField y "host").asStr
  let database ← (← requireField y "database").asStr
  let user ← (← requireField y "user").asStr
  let password ← (← requireField y "password").asStr
  return { host := host, database := database, user := user, password := password }

/-- Pydantic validation of CSVSettings. -/
def validateCSVSettings (y : Yaml) : Except String CSVSettings := do
  let encoding ← (← requireField y "encoding").asStr
  let delimiter ← (← requireField y "delimiter").asStr
  let quote_char ← (← requireField y "quote_char").asStr
  return { encoding := encoding, delimiter := delimiter, quote_char := quote_char }

/-- Pydantic validation of one row mapping of a dictionary table: any dict
with string keys (values have type Any). -/
def validateRecord (y : Yaml) : Except String (List (ColumName × ColumnValue)) :=
  match y with
  | .map kvs => .ok kvs
  | _ => .error "Input should be a valid dictionary"

/-- Pydantic validation of DictTableSettings. -/
def validateDictTable (y : Yaml) : Except String DictTableSettings := do
  let name ← (← requireField y "name").asStr
  let dataY ← requireField y "data"
  match dataY with
  | .list xs => do
    let recs ← mapExcept validateRecord xs
    return { name := name, data := recs }
  | _ => .error "Input should be a valid list"

/-- Pydantic validation of DataFileSettings. -/
def validateDataFile (y : Yaml) : Except String DataFileSettings := do
  let file_name ← (← requireField y "file_name").asStr
  let table_name ← (← requireField y "table_name").asStr
  let is_spatial ← (← requireField y "is_spatial").asBool
  let colsY ← requireField y "columns"
  match colsY with
  | .list xs => do
    let cols ← mapExcept Yaml.asStr xs
    return { file_name := file_name, table_name := table_name,
             is_spatial := is_spatial, columns := cols }
  | _ => .error "Input should be a valid list"

/-- Pydantic validation of the aggregate Configuration (pydantic coerces a
string into a Path for data_dir). -/
def validateConfiguration (y : Yaml) : Except String Configuration := do
  let db ← validateDBConnection (← requireField y "nasr_db")
  let csv ← validateCSVSettings (← requireField y "csv_settings")
  let data_dir ← (← requireField y "data_dir").asStr
  let dictY ← requireField y "dict_tables"
  let dataY ← requireField y "data_tables"
  match dictY, dataY with
  | .list ds, .list fs => do
    let dict_tables ← mapExcept validateDictTable ds
    let data_tables ← mapExcept validateDataFile fs
    return { nasr_db := db, csv_settings := csv, data_dir := data_dir,
             dict_tables := dict_tables, data_tables := data_tables }
  | .list _, _ => .error "Input should be a valid list"
  | _, _ => .error "Input should be a valid list"

/-- load_config: yaml.safe_load of the file's text (modelled as the already
abstracted parse result: `none` is an unparsable file) followed by pydantic
validation via Configuration(**content). -/
def load_config (raw : Option Yaml) : Except String Configuration :=
  match raw with
  | none => .error "yaml parse error"
  | some y => validateConfiguration y

/-- The connection string built by main from the nasr_db settings. -/
def connectionString (db : DBConnection) : String :=
  "postgresql+psycopg2://" ++ db.user ++ ":" ++ db.password ++ "@" ++ db.host
    ++ ":5432/" ++ db.database

/-- data_tables_lookup built by main as a dict comprehension keyed by
file_name; a later entry with the same file name overrides an earlier one. -/
def data_tables_lookup (data_tables : List DataFileSettings) (f : String) :
    Option DataFileSettings :=
  data_tables.reverse.find? (fun t => t.file_name == f)

/-- The fixed, explicit order of data-file keys hard-coded in main. -/
def dataFileOrder : List String :=
  ["AWOS.csv", "FIX_BASE.csv", "FIX_CHRT.csv", "FIX_NAV.csv", "LID.csv",
   "NAV_BASE.csv", "NAV_CKPT.csv", "NAV_RMK.csv", "RDR.csv",
   "WXL_BASE.csv", "WXL_SVC.csv"]

/-- The sequence of lookup-and-load_table calls in main: a missing key is a
KeyError aborting the run; an exception escaping load_table also aborts.
Returns the events, log delta, ops delta, and the aborting exception if
any. -/
def runDataTables (lookup : String → Option DataFileSettings)
    (loader : DataTableLoader) (fs : FileSystem) (files : List String) :
    List MainEvent × List LogEvent × List InsertOp × Option String :=
  match files with
  | [] => ([], [], [], none)
  | f :: rest =>
    match lookup f with
    | none => ([], [], [], some ("KeyError: " ++ f))
    | some s =>
      match load_table loader fs s with
      | .error e => ([.dataTableLoad f], [], [], some e)
      | .ok d =>
        let r := runDataTables lookup loader fs rest
        (.dataTableLoad f :: r.1, d.1 ++ r.2.1, d.2 ++ r.2.2.1, r.2.2.2)

/-- main: load the config, create the engine, load every dictionary table,
then load the data tables in the hard-coded order.  Returns the event
trace, the accumulated run state, and the exception that aborted the run,
if any (a config failure aborts before any engine is created). -/
def main (raw : Option Yaml) (fs : FileSystem) (engFails : String → Bool) :
    List MainEvent × RunState × Option String :=
  match load_config raw with
  | .error e => ([], { ops := [], log := [] }, some e)
  | .ok config =>
    let eng : Engine := { fails := engFails }
    let ddelta := load_dict_tables eng config.dict_tables
    let loader : DataTableLoader :=
      { data_dir := config.data_dir, csv_settings := config.csv_settings, engine := eng }
    let r := runDataTables (data_tables_lookup config.data_tables) loader fs dataFileOrder
    (MainEvent.configLoaded :: MainEvent.engineCreated ::
       (config.dict_tables.map (fun t => MainEvent.dictTableLoad t.name)) ++ r.1,
     { ops := ddelta.2 ++ r.2.2.1, log := ddelta.1 ++ r.2.1 },
     r.2.2.2)

/-! Spec-side definitions, written from the specification's words, used to
compare against the code-derived definitions above. -/

/-- The named field is present and holds a string. -/
def isStrField (y : Yaml) (k : String) : Bool :=
  match y.lookup k with
  | some (.str _) => true
  | _ => false

/-- The named field is present and holds a boolean. -/
def isBoolField (y : Yaml) (k : String) : Bool :=
  match y.lookup k with
  | some (.bool _) => true
  | _ => false

/-- The value is a mapping (a row-mapping of a dictionary table). -/
def isRecordY : Yaml → Bool
  | .map _ => true
  | _ => false

/-- Spec schema for one dict_tables entry: name (string) and data (list of
row-mappings). -/
def dictTableWellFormed (y : Yaml) : Bool :=
  isStrField y "name" &&
  (match y.lookup "data" with
   | some (.list xs) => xs.all isRecordY
   | _ => false)

/-- Spec schema for one data_tables entry: file_name, table_name (strings),
is_spatial (bool), columns (list of strings). -/
def dataFileWellFormed (y : Yaml) : Bool :=
  isStrField y "file_name" && isStrField y "table_name" &&
  isBoolField y "is_spatial" &&
  (match y.lookup "columns" with
   | some (.list xs) => xs.all (fun x => match x with | .str _ => true | _ => false)
   | _ => false)

/-- Modelled from the spec (section 6, config schema): the config file
parses and every required field is present with the right type.  Top-level
keys nasr_db (host, database, user, password), csv_settings (encoding,
delimiter, quote_char), data_dir, dict_tables, data_tables. -/
def configWellFormed (raw : Option Yaml) : Bool :=
  match raw with
  | none => false
  | some y =>
    (match y.lookup "nasr_db" with
     | some d => isStrField d "host" && isStrField d "database" &&
                 isStrField d "user" && isStrField d "password"
     | none => false) &&
    (match y.lookup "csv_settings" with
     | some c => isStrField c "encoding" && isStrField c "delimiter" &&
                 isStrField c "quote_char"
     | none => false) &&
    isStrField y "data_dir" &&
    (match y.lookup "dict_tables" with
     | some (.list ds) => ds.all dictTableWellFormed
     | _ => false) &&
    (match y.lookup "data_tables" with
     | some (.list fs) => fs.all dataFileWellFormed
     | _ => false)

/-- The rows a list of executed inserts has appended into table `t`, in
execution order (the destination table's contents, given append-only
semantics and an initially derived-empty table). -/
def tableRows (ops : List InsertOp) (t : String) : List (List Yaml) :=
  ops.flatMap (fun op =>
    match op with
    | .nonSpatial tn _ rows => if tn == t then rows else []
    | .spatial tn _ rows _ _ _ => if tn == t then rows else [])

/-- The frame _prepare_data produces on success: the header's columns that
are among the configured ones (in file order) lowercased, and every cell's
raw text trimmed. -/
def preparedFrame (csv : CSVFile) (columns : List String) : DataFrame :=
  { cols := (csv.header.filter (fun h => columns.contains h)).map strLower,
    rows := csv.rows.map (fun r => (selectColumns csv.header columns r).map strTrim) }

/-- The table names whose load was started, in the order the start lines
were logged. -/
def startedTables (log : List LogEvent) : List String :=
  log.filterMap (fun e =>
    match e with
    | .inserting t => some t
    | _ => none)

/-! ### Concrete fixtures used by counterexamples and witnesses -/

/-- An engine that never fails. -/
def engOkF : Engine := { fails := fun _ => false }

/-- An engine that fails on every insert. -/
def engBadF : Engine := { fails := fun _ => true }

/-- A concrete loader over data_dir "data" with a never-failing sink. -/
def loaderA : DataTableLoader :=
  { data_dir := "data",
    csv_settings := { encoding := "utf-8", delimiter := ",", quote_char := "\"" },
    engine := engOkF }

/-- Same loader with an always-failing sink. -/
def loaderB : DataTableLoader :=
  { data_dir := "data",
    csv_settings := { encoding := "utf-8", delimiter := ",", quote_char := "\"" },
    engine := engBadF }

/-- A one-column file whose header lacks the configured column "B". -/
def csvA : CSVFile := { header := ["A"], rows := [[" x "]] }

/-- Filesystem serving csvA at data/MISS.csv. -/
def fsA : FileSystem := fun p => if p == "data/MISS.csv" then some csvA else none

/-- Settings requesting column "B", absent from csvA's header. -/
def sA : DataFileSettings :=
  { file_name := "MISS.csv", table_name := "miss", is_spatial := false,
    columns := ["A", "B"] }

/-- A file whose header has "ID" in upper case. -/
def csvB : CSVFile := { header := ["ID"], rows := [["x"]] }

/-- Filesystem serving csvB at data/CASE.csv. -/
def fsB : FileSystem := fun p => if p == "data/CASE.csv" then some csvB else none

/-- Settings requesting "id", which matches the header "ID" only up to
case. -/
def sB : DataFileSettings :=
  { file_name := "CASE.csv", table_name := "c", is_spatial := false,
    columns := ["id"] }

/-- A two-column file, header order B then A, cells with padding. -/
def csvC : CSVFile := { header := ["B", "A"], rows := [[" x ", " y "]] }

/-- Filesystem serving csvC at data/OK.csv. -/
def fsC : FileSystem := fun p => if p == "data/OK.csv" then some csvC else none

/-- Settings requesting columns A and B of csvC. -/
def sC : DataFileSettings :=
  { file_name := "OK.csv", table_name := "ok_t", is_spatial := false,
    columns := ["A", "B"] }

/-- A spatial file: coordinate columns plus one attribute, two rows. -/
def csvD : CSVFile :=
  { header := ["long_decimal", "lat_decimal", "nm"],
    rows := [["10.5", "45.1", " A "], ["11.0", "46.2", "B"]] }

/-- Filesystem serving csvD at data/GEO.csv. -/
def fsD : FileSystem := fun p => if p == "data/GEO.csv" then some csvD else none

/-- Spatial settings for csvD. -/
def sD : DataFileSettings :=
  { file_name := "GEO.csv", table_name := "geo", is_spatial := true,
    columns := ["long_decimal", "lat_decimal", "nm"] }

/-- A raw data_tables entry for file f: non-spatial, one column "a". -/
def mkDataEntry (f : String) : Yaml :=
  .map [("file_name", .str f), ("table_name", .str f),
        ("is_spatial", .bool false), ("columns", .list [.str "a"])]

/-- A raw config, complete except for the data_tables entries given. -/
def rawBase (entries : List Yaml) : Yaml :=
  .map [("nasr_db", .map [("host", .str "h"), ("database", .str "d"),
                          ("user", .str "u"), ("password", .str "p")]),
        ("csv_settings", .map [("encoding", .str "utf-8"), ("delimiter", .str ","),
                               ("quote_char", .str "\"")]),
        ("data_dir", .str "data"),
        ("dict_tables", .list []),
        ("data_tables", .list entries)]

/-- A well-formed raw config covering every hard-coded data file. -/
def rawGood : Option Yaml := some (rawBase (dataFileOrder.map mkDataEntry))

/-- A well-formed raw config whose data_tables lack FIX_CHRT.csv. -/
def rawMissing : Option Yaml :=
  some (rawBase ((dataFileOrder.erase "FIX_CHRT.csv").map mkDataEntry))

/-- A malformed raw config: nasr_db is missing the password field. -/
def rawBad : Option Yaml :=
  some (.map [("nasr_db", .map [("host", .str "h"), ("database", .str "d"),
                                ("user", .str "u")])])

/-- The configuration rawGood validates to. -/
def cfgGood : Configuration :=
  { nasr_db := { host := "h", database := "d", user := "u", password := "p" },
    csv_settings := { encoding := "utf-8", delimiter := ",", quote_char := "\"" },
    data_dir := "data", dict_tables := [],
    data_tables := dataFileOrder.map (fun f =>
      { file_name := f, table_name := f, is_spatial := false, columns := ["a"] }) }

/-- The configuration rawMissing validates to. -/
def cfgMissing : Configuration :=
  { nasr_db := { host := "h", database := "d", user := "u", password := "p" },
    csv_settings := { encoding := "utf-8", delimiter := ",", quote_char := "\"" },
    data_dir := "data", dict_tables := [],
    data_tables := (dataFileOrder.erase "FIX_CHRT.csv").map (fun f =>
      { file_name := f, table_name := f, is_spatial := false, columns := ["a"] }) }

/-- A filesystem serving the same one-column file at every path. -/
def fsAll : FileSystem := fun _ => some { header := ["a"], rows := [["x"]] }

/-- Engine-failure oracle that never fails. -/
def efNone : String → Bool := fun _ => false

/-! ### Helper lemmas -/

theorem except_bind_ok {α β : Type} {e : Except String α} {f : α → Except String β} {b : β}
    (h : e >>= f = .ok b) : ∃ a, e = .ok a ∧ f a = .ok b := by
  cases e with
  | error e' => exact absurd h (by simp [Bind.bind, Except.bind])
  | ok a => exact ⟨a, rfl, by simpa [Bind.bind, Except.bind] using h⟩

theorem load_dict_tables_append (eng : Engine) (xs ys : List DictTableSettings) :
    load_dict_tables eng (xs ++ ys) =
      ((load_dict_tables eng xs).1 ++ (load_dict_tables eng ys).1,
       (load_dict_tables eng xs).2 ++ (load_dict_tables eng ys).2) := by
  induction xs with
  | nil => simp [load_dict_tables]
  | cons t rest ih => simp [load_dict_tables, ih]

theorem tableRows_append (a b : List InsertOp) (t : String) :
    tableRows (a ++ b) t = tableRows a t ++ tableRows b t := by
  simp [tableRows]

theorem prepare_data_ok (loader : DataTableLoader) (fs : FileSystem)
    (s : DataFileSettings) (csv : CSVFile)
    (hfs : fs (loader.data_dir ++ "/" ++ s.file_name) = some csv)
    (hcols : ∀ c ∈ s.columns, c ∈ csv.header) :
    _prepare_data loader fs s = .ok (preparedFrame csv s.columns) := by
  simp only [_prepare_data, hfs, preparedFrame]
  rw [if_pos]
  simpa [List.all_eq_true] using hcols

theorem _load_non_spatial_ok (loader : DataTableLoader) (df : DataFrame)
    (s : DataFileSettings) (hok : loader.engine.fails s.table_name = false) :
    _load_non_spatial loader df s =
      ([LogEvent.inserting s.table_name,
        LogEvent.rowsInserted s.table_name df.rows.length],
       [InsertOp.nonSpatial s.table_name df.cols
          (df.rows.map (fun r => r.map Yaml.str))]) := by
  simp [_load_non_spatial, to_sql, load_log_decorator, hok]

theorem _load_spatial_ok (loader : DataTableLoader) (df : DataFrame)
    (s : DataFileSettings) (hlong : "long_decimal" ∈ df.cols)
    (hlat : "lat_decimal" ∈ df.cols)
    (hok : loader.engine.fails s.table_name = false) :
    _load_spatial loader df s =
      ([LogEvent.inserting s.table_name,
        LogEvent.rowsInserted s.table_name df.rows.length],
       [InsertOp.spatial s.table_name
          (dropColumns df ["long_decimal", "lat_decimal"]).cols
          ((dropColumns df ["long_decimal", "lat_decimal"]).rows.map
            (fun r => r.map Yaml.str))
          ((colValues df "long_decimal").zip (colValues df "lat_decimal"))
          "EPSG:4326" 10000]) := by
  simp [_load_spatial, to_postgis, load_log_decorator, hok, hlong, hlat]

theorem requireField_ok {y : Yaml} {k : String} {v : Yaml}
    (h : requireField y k = .ok v) : y.lookup k = some v := by
  unfold requireField at h
  cases hl : y.lookup k with
  | none => rw [hl] at h; exact absurd h (by simp)
  | some w => rw [hl] at h; simp at h; rw [h]

theorem asStr_ok {y : Yaml} {s : String} (h : y.asStr = .ok s) : y = .str s := by
  cases y <;> simp_all [Yaml.asStr]

theorem asBool_ok {y : Yaml} {b : Bool} (h : y.asBool = .ok b) : y = .bool b := by
  cases y <;> simp_all [Yaml.asBool]

theorem mapExcept_ok {α β : Type} {f : α → Except String β} :
    ∀ {xs : List α} {ys : List β}, mapExcept f xs = .ok ys →
      ∀ x ∈ xs, ∃ y, f x = .ok y := by
  intro xs
  induction xs with
  | nil => intro ys _ x hx; cases hx
  | cons a as ih =>
    intro ys h x hx
    unfold mapExcept at h
    obtain ⟨b, hb, h⟩ := except_bind_ok h
    obtain ⟨bs, hbs, _⟩ := except_bind_ok h
    rcases List.mem_cons.mp hx with rfl | hmem
    · exact ⟨b, hb⟩
    · exact ih hbs x hmem

theorem validateDBConnection_ok {y : Yaml} {d : DBConnection}
    (h : validateDBConnection y = .ok d) :
    (isStrField y "host" && isStrField y "database" &&
     isStrField y "user" && isStrField y "password") = true := by
  unfold validateDBConnection at h
  obtain ⟨v1, h1, h⟩ := except_bind_ok h
  obtain ⟨host, h1s, h⟩ := except_bind_ok h
  obtain ⟨v2, h2, h⟩ := except_bind_ok h
  obtain ⟨db, h2s, h⟩ := except_bind_ok h
  obtain ⟨v3, h3, h⟩ := except_bind_ok h
  obtain ⟨us, h3s, h⟩ := except_bind_ok h
  obtain ⟨v4, h4, h⟩ := except_bind_ok h
  obtain ⟨pw, h4s, _⟩ := except_bind_ok h
  simp [isStrField, requireField_ok h1, requireField_ok h2, requireField_ok h3,
    requireField_ok h4, asStr_ok h1s, asStr_ok h2s, asStr_ok h3s, asStr_ok h4s]

theorem validateCSVSettings_ok {y : Yaml} {c : CSVSettings}
    (h : validateCSVSettings y = .ok c) :
    (isStrField y "encoding" && isStrField y "delimiter" &&
     isStrField y "quote_char") = true := by
  unfold validateCSVSettings at h
  obtain ⟨v1, h1, h⟩ := except_bind_ok h
  obtain ⟨e1, h1s, h⟩ := except_bind_ok h
  obtain ⟨v2, h2, h⟩ := except_bind_ok h
  obtain ⟨e2, h2s, h⟩ := except_bind_ok h
  obtain ⟨v3, h3, h⟩ := except_bind_ok h
  obtain ⟨e3, h3s, _⟩ := except_bind_ok h
  simp [isStrField, requireField_ok h1, requireField_ok h2, requireField_ok h3,
    asStr_ok h1s, asStr_ok h2s, asStr_ok h3s]

theorem validateRecord_ok {y : Yaml} {r : List (ColumName × ColumnValue)}
    (h : validateRecord y = .ok r) : isRecordY y = true := by
  cases y <;> simp_all [validateRecord, isRecordY]

theorem validateDictTable_ok {y : Yaml} {t : DictTableSettings}
    (h : validateDictTable y = .ok t) : dictTableWellFormed y = true := by
  unfold validateDictTable at h
  obtain ⟨v1, h1, h⟩ := except_bind_ok h
  obtain ⟨name, h1s, h⟩ := except_bind_ok h
  obtain ⟨dataY, h2, h⟩ := except_bind_ok h
  cases dataY with
  | list xs =>
    obtain ⟨recs, hrecs, _⟩ := except_bind_ok h
    have hall : xs.all isRecordY = true := by
      rw [List.all_eq_true]
      intro x hx
      obtain ⟨r, hr⟩ := mapExcept_ok hrecs x hx
      simpa using validateRecord_ok hr
    simp [dictTableWellFormed, isStrField, requireField_ok h1,
      requireField_ok h2, asStr_ok h1s, hall]
  | null => exact absurd h (by simp)
  | str a => exact absurd h (by simp)
  | bool b => exact absurd h (by simp)
  | num n => exact absurd h (by simp)
  | map kvs => exact absurd h (by simp)

theorem validateDataFile_ok {y : Yaml} {t : DataFileSettings}
    (h : validateDataFile y = .ok t) : dataFileWellFormed y = true := by
  unfold validateDataFile at h
  obtain ⟨v1, h1, h⟩ := except_bind_ok h
  obtain ⟨fn, h1s, h⟩ := except_bind_ok h
  obtain ⟨v2, h2, h⟩ := except_bind_ok h
  obtain ⟨tn, h2s, h⟩ := except_bind_ok h
  obtain ⟨v3, h3, h⟩ := except_bind_ok h
  obtain ⟨sp, h3s, h⟩ := except_bind_ok h
  obtain ⟨colsY, h4, h⟩ := except_bind_ok h
  cases colsY with
  | list xs =>
    obtain ⟨cols, hcols, _⟩ := except_bind_ok h
    have hall : (xs.all (fun x => match x with | .str _ => true | _ => false)) = true := by
      rw [List.all_eq_true]
      intro x hx
      obtain ⟨cs, hcs⟩ := mapExcept_ok hcols x hx
      rw [asStr_ok hcs]
    simp [dataFileWellFormed, isStrField, isBoolField, requireField_ok h1,
      requireField_ok h2, requireField_ok h3, requireField_ok h4,
      asStr_ok h1s, asStr_ok h2s, asBool_ok h3s, hall]
  | null => exact absurd h (by simp)
  | str a => exact absurd h (by simp)
  | bool b => exact absurd h (by simp)
  | num n => exact absurd h (by simp)
  | map kvs => exact absurd h (by simp)

theorem validateConfiguration_ok {y : Yaml} {cfg : Configuration}
    (h : validateConfiguration y = .ok cfg) : configWellFormed (some y) = true := by
  unfold validateConfiguration at h
  obtain ⟨vdb, h1, h⟩ := except_bind_ok h
  obtain ⟨db, h1v, h⟩ := except_bind_ok h
  obtain ⟨vcsv, h2, h⟩ := except_bind_ok h
  obtain ⟨csv, h2v, h⟩ := except_bind_ok h
  obtain ⟨vdir, h3, h⟩ := except_bind_ok h
  obtain ⟨dir, h3s, h⟩ := except_bind_ok h
  obtain ⟨dictY, h4, h⟩ := except_bind_ok h
  obtain ⟨dataY, h5, h⟩ := except_bind_ok h
  cases dictY with
  | list ds =>
    cases dataY with
    | list fs =>
      obtain ⟨dts, hdts, h⟩ := except_bind_ok h
      obtain ⟨fts, hfts, _⟩ := except_bind_ok h
      have hds : ds.all dictTableWellFormed = true := by
        rw [List.all_eq_true]
        intro x hx
        obtain ⟨t, ht⟩ := mapExcept_ok hdts x hx
        simpa using validateDictTable_ok ht
      have hfs : fs.all dataFileWellFormed = true := by
        rw [List.all_eq_true]
        intro x hx
        obtain ⟨t, ht⟩ := mapExcept_ok hfts x hx
        simpa using validateDataFile_ok ht
      have hdb := validateDBConnection_ok h1v
      have hcsv := validateCSVSettings_ok h2v
      simp only [Bool.and_eq_true] at hdb hcsv
      obtain ⟨⟨⟨hdb1, hdb2⟩, hdb3⟩, hdb4⟩ := hdb
      obtain ⟨⟨hcsv1, hcsv2⟩, hcsv3⟩ := hcsv
      have hdir : isStrField y "data_dir" = true := by
        simp [isStrField, requireField_ok h3, asStr_ok h3s]
      simp [configWellFormed, requireField_ok h1, requireField_ok h2,
        requireField_ok h4, requireField_ok h5, hdir, hds, hfs,
        hdb1, hdb2, hdb3, hdb4, hcsv1, hcsv2, hcsv3]
    | null => exact absurd h (by simp)
    | str a => exact absurd h (by simp)
    | bool b => exact absurd h (by simp)
    | num n => exact absurd h (by simp)
    | map kvs => exact absurd h (by simp)
  | null => exact absurd h (by simp)
  | str a => exact absurd h (by simp)
  | bool b => exact absurd h (by simp)
  | num n => exact absurd h (by simp)
  | map kvs => exact absurd h (by simp)

theorem runDataTables_ok_events (lookup : String → Option DataFileSettings)
    (loader : DataTableLoader) (fs : FileSystem) :
    ∀ files, (runDataTables lookup loader fs files).2.2.2 = none →
      (runDataTables lookup loader fs files).1 = files.map MainEvent.dataTableLoad := by
  intro files
  induction files with
  | nil => intro _; simp [runDataTables]
  | cons f rest ih =>
    intro h
    unfold runDataTables at h ⊢
    cases hl : lookup f with
    | none => simp only [hl] at h; simp at h
    | some s =>
      simp only [hl] at h
      cases ht : load_table loader fs s with
      | error e => simp only [ht] at h; simp at h
      | ok d =>
        simp only [ht] at h
        have h' : (runDataTables lookup loader fs rest).2.2.2 = none := by
          simpa using h
        simp [ht]
        exact ih h'

theorem runDataTables_missing (lookup : String → Option DataFileSettings)
    (loader : DataTableLoader) (fs : FileSystem) (f : String) :
    ∀ files, f ∈ files → lookup f = none →
      ∃ e, (runDataTables lookup loader fs files).2.2.2 = some e := by
  intro files
  induction files with
  | nil => intro h; cases h
  | cons g rest ih =>
    intro hmem hnone
    unfold runDataTables
    cases hl : lookup g with
    | none => exact ⟨"KeyError: " ++ g, rfl⟩
    | some s =>
      have hf : f ∈ rest := by
        rcases List.mem_cons.mp hmem with rfl | hr
        · rw [hl] at hnone; cases hnone
        · exact hr
      cases ht : load_table loader fs s with
      | error e => exact ⟨e, by simp [ht]⟩
      | ok d =>
        obtain ⟨e, he⟩ := ih hf hnone
        exact ⟨e, by simpa [ht] using he⟩

theorem runDataTables_first_missing (lookup : String → Option DataFileSettings)
    (loader : DataTableLoader) (fs : FileSystem) (f : String) :
    ∀ files, f ∈ files → lookup f = none →
      (∀ g ∈ files, g ≠ f →
        ∃ s, lookup g = some s ∧ ∃ d, load_table loader fs s = .ok d) →
      (runDataTables lookup loader fs files).2.2.2 = some ("KeyError: " ++ f) := by
  intro files
  induction files with
  | nil => intro h; cases h
  | cons g rest ih =>
    intro hmem hnone hprev
    unfold runDataTables
    by_cases hg : g = f
    · subst hg
      rw [hnone]
    · obtain ⟨s, hls, d, hd⟩ := hprev g (List.mem_cons_self g rest) hg
      have hf : f ∈ rest := by
        rcases List.mem_cons.mp hmem with rfl | hr
        · exact absurd rfl hg
        · exact hr
      simp only [hls, hd]
      simpa using ih hf hnone (fun g' hg' => hprev g' (List.mem_cons_of_mem g hg'))

/-! ### Claim theorems -/

/-- C2: during load_dict_tables, an exception raised by one table's insert
is caught by the logging wrapper and logged at that table's boundary (an
inserting line followed by the logged exception, and nothing else for that
table), and every table before and after it is loaded exactly as it would
have been on its own: the batch is never aborted. -/
theorem load_dict_tables_isolates_failure (eng : Engine)
    (ts₁ ts₂ : List DictTableSettings) (t : DictTableSettings)
    (h : eng.fails t.name = true) :
    load_dict_tables eng (ts₁ ++ t :: ts₂) =
      ((load_dict_tables eng ts₁).1
         ++ [LogEvent.inserting t.name,
             LogEvent.exceptionLogged ("insert failed: " ++ t.name)]
         ++ (load_dict_tables eng ts₂).1,
       (load_dict_tables eng ts₁).2 ++ (load_dict_tables eng ts₂).2) := by
  rw [load_dict_tables_append]
  simp [load_dict_tables, load_dict_table, to_sql, h, load_log_decorator]

/-- Witness for C2 at a concrete batch: the middle table's insert fails,
the outer two load anyway. -/
theorem load_dict_tables_isolates_failure_witness :
    (Engine.mk (fun n => n == "bad")).fails
        (DictTableSettings.mk "bad" [[("a", Yaml.num 1)]]).name = true ∧
    load_dict_tables (Engine.mk (fun n => n == "bad"))
        ([DictTableSettings.mk "t1" []]
          ++ DictTableSettings.mk "bad" [[("a", Yaml.num 1)]]
            :: [DictTableSettings.mk "t2" []]) =
      ((load_dict_tables (Engine.mk (fun n => n == "bad"))
          [DictTableSettings.mk "t1" []]).1
         ++ [LogEvent.inserting "bad", LogEvent.exceptionLogged ("insert failed: " ++ "bad")]
         ++ (load_dict_tables (Engine.mk (fun n => n == "bad"))
              [DictTableSettings.mk "t2" []]).1,
       (load_dict_tables (Engine.mk (fun n => n == "bad"))
          [DictTableSettings.mk "t1" []]).2
         ++ (load_dict_tables (Engine.mk (fun n => n == "bad"))
              [DictTableSettings.mk "t2" []]).2) :=
  ⟨rfl, load_dict_tables_isolates_failure _ _ _ _ rfl⟩

/-- C6: a dictionary table whose data sequence is empty gets an insert of
zero rows and a success log line reporting 0 rows inserted; no exception is
raised or logged for it, and the rest of the batch is unaffected. -/
theorem load_dict_tables_empty_data (eng : Engine) (name : String)
    (h : eng.fails name = false) (ts₁ ts₂ : List DictTableSettings) :
    load_dict_tables eng (ts₁ ++ DictTableSettings.mk name [] :: ts₂) =
      ((load_dict_tables eng ts₁).1
         ++ [LogEvent.inserting name, LogEvent.rowsInserted name 0]
         ++ (load_dict_tables eng ts₂).1,
       (load_dict_tables eng ts₁).2
         ++ [InsertOp.nonSpatial name [] []]
         ++ (load_dict_tables eng ts₂).2) := by
  rw [load_dict_tables_append]
  simp [load_dict_tables, load_dict_table, to_sql, h, load_log_decorator,
    recordColumns, recordRows, List.eraseDups, List.eraseDups.loop]

/-- Witness for C6 at a concrete batch with a 0-row table. -/
theorem load_dict_tables_empty_data_witness :
    (Engine.mk (fun _ => false)).fails "empty" = false ∧
    load_dict_tables (Engine.mk (fun _ => false))
        ([] ++ DictTableSettings.mk "empty" [] :: []) =
      ((load_dict_tables (Engine.mk (fun _ => false)) []).1
         ++ [LogEvent.inserting "empty", LogEvent.rowsInserted "empty" 0]
         ++ (load_dict_tables (Engine.mk (fun _ => false)) []).1,
       (load_dict_tables (Engine.mk (fun _ => false)) []).2
         ++ [InsertOp.nonSpatial "empty" [] []]
         ++ (load_dict_tables (Engine.mk (fun _ => false)) []).2) :=
  ⟨rfl, load_dict_tables_empty_data _ _ rfl [] []⟩

/-- C10: the row count in the success log line is the length of the data
argument passed into the wrapped loader, for each of the three decorated
loaders and for every engine that accepts the insert; when the wrapped body
raises (sink failure, or a missing coordinate column on the spatial path),
no row-count line is emitted. -/
theorem logged_row_count_is_input_length (engOk engBad : Engine) (name : String)
    (data : List (List (ColumName × ColumnValue)))
    (loaderOk loaderBad : DataTableLoader) (df df2 : DataFrame) (s : DataFileSettings)
    (h1 : engOk.fails name = false) (h2 : engBad.fails name = true)
    (h3 : loaderOk.engine.fails s.table_name = false)
    (h4 : loaderBad.engine.fails s.table_name = true)
    (h5 : df.cols.contains "long_decimal" = true)
    (h6 : df.cols.contains "lat_decimal" = true)
    (h7 : df2.cols.contains "long_decimal" = false) :
    (load_dict_table engOk name data).1 =
      [LogEvent.inserting name, LogEvent.rowsInserted name data.length] ∧
    (∀ t n, LogEvent.rowsInserted t n ∉ (load_dict_table engBad name data).1) ∧
    (_load_non_spatial loaderOk df s).1 =
      [LogEvent.inserting s.table_name,
       LogEvent.rowsInserted s.table_name df.rows.length] ∧
    (∀ t n, LogEvent.rowsInserted t n ∉ (_load_non_spatial loaderBad df s).1) ∧
    (_load_spatial loaderOk df s).1 =
      [LogEvent.inserting s.table_name,
       LogEvent.rowsInserted s.table_name df.rows.length] ∧
    (∀ t n, LogEvent.rowsInserted t n ∉ (_load_spatial loaderBad df s).1) ∧
    (∀ t n, LogEvent.rowsInserted t n ∉ (_load_spatial loaderOk df2 s).1) := by
  refine ⟨?_, ?_, ?_, ?_, ?_, ?_, ?_⟩
  · simp [load_dict_table, load_log_decorator, to_sql, h1]
  · simp [load_dict_table, load_log_decorator, to_sql, h2]
  · simp [_load_non_spatial, load_log_decorator, to_sql, h3]
  · simp [_load_non_spatial, load_log_decorator, to_sql, h4]
  · have h5' : "long_decimal" ∈ df.cols := by simpa using h5
    have h6' : "lat_decimal" ∈ df.cols := by simpa using h6
    simp [_load_spatial, load_log_decorator, to_postgis, h3, h5', h6']
  · have h5' : "long_decimal" ∈ df.cols := by simpa using h5
    have h6' : "lat_decimal" ∈ df.cols := by simpa using h6
    simp [_load_spatial, load_log_decorator, to_postgis, h4, h5', h6']
  · have h7' : "long_decimal" ∉ df2.cols := by simpa using h7
    simp [_load_spatial, load_log_decorator, to_postgis, h7']

/-- Witness for C10 at concrete engines, loaders and frames. -/
theorem logged_row_count_is_input_length_witness :
    (load_dict_table engOkF "d" [[("a", Yaml.num 1)], [("a", Yaml.num 2)]]).1 =
      [LogEvent.inserting "d", LogEvent.rowsInserted "d" 2] ∧
    (∀ t n, LogEvent.rowsInserted t n ∉
       (load_dict_table engBadF "d" [[("a", Yaml.num 1)], [("a", Yaml.num 2)]]).1) ∧
    (_load_non_spatial loaderA (DataFrame.mk ["long_decimal", "lat_decimal"] [["1", "2"]]) sA).1 =
      [LogEvent.inserting "miss", LogEvent.rowsInserted "miss" 1] ∧
    (∀ t n, LogEvent.rowsInserted t n ∉
       (_load_non_spatial loaderB (DataFrame.mk ["long_decimal", "lat_decimal"] [["1", "2"]]) sA).1) ∧
    (_load_spatial loaderA (DataFrame.mk ["long_decimal", "lat_decimal"] [["1", "2"]]) sA).1 =
      [LogEvent.inserting "miss", LogEvent.rowsInserted "miss" 1] ∧
    (∀ t n, LogEvent.rowsInserted t n ∉
       (_load_spatial loaderB (DataFrame.mk ["long_decimal", "lat_decimal"] [["1", "2"]]) sA).1) ∧
    (∀ t n, LogEvent.rowsInserted t n ∉
       (_load_spatial loaderA (DataFrame.mk ["a"] [["1"]]) sA).1) :=
  logged_row_count_is_input_length engOkF engBadF "d" _ loaderA loaderB
    (DataFrame.mk ["long_decimal", "lat_decimal"] [["1", "2"]])
    (DataFrame.mk ["a"] [["1"]]) sA rfl rfl rfl rfl rfl rfl rfl

/-- C1 counterexample: a configured column absent from the CSV header makes
load_table raise (the ValueError from the read step propagates out of
load_table, which only guards the insert step), rather than return
normally. -/
theorem load_table_missing_column_raises_counterexample :
    "B" ∈ sA.columns ∧ "B" ∉ csvA.header ∧ (load_table loaderA fsA sA).isOk = false := by
  decide

/-- C1 amended: when a configured column is absent from the CSV file's
header, the read step raises a ValueError which load_table propagates
uncaught to its caller; no row is inserted and no log line (in particular
no failure line) is emitted for that table. -/
theorem load_table_missing_column_raises (loader : DataTableLoader) (fs : FileSystem)
    (s : DataFileSettings) (csv : CSVFile) (c : String)
    (hfs : fs (loader.data_dir ++ "/" ++ s.file_name) = some csv)
    (hc : c ∈ s.columns) (hmiss : c ∉ csv.header) :
    load_table loader fs s = .error "ValueError: Usecols do not match columns" := by
  have hall : ¬ ∀ x ∈ s.columns, x ∈ csv.header :=
    fun hforall => hmiss (hforall c hc)
  simp [load_table, _prepare_data, hfs, hall]

/-- Witness for the amended C1 at the concrete fixture. -/
theorem load_table_missing_column_raises_witness :
    fsA (loaderA.data_dir ++ "/" ++ sA.file_name) = some csvA ∧
    "B" ∈ sA.columns ∧ "B" ∉ csvA.header ∧
    load_table loaderA fsA sA = .error "ValueError: Usecols do not match columns" :=
  ⟨by decide, by decide, by decide,
   load_table_missing_column_raises loaderA fsA sA csvA "B" (by decide) (by decide) (by decide)⟩

/-- C3 counterexample: matching between config-declared column names and
CSV header names is case-sensitive, not case-insensitive: the configured
column "id" and the header "ID" agree up to case, yet the prepare step
fails instead of producing a table. -/
theorem prepare_data_case_sensitive_counterexample :
    sB.columns = ["id"] ∧ csvB.header = ["ID"] ∧
    strLower "id" = strLower "ID" ∧
    (_prepare_data loaderA fsB sB).isOk = false := by
  decide

/-- C3 amended: the prepare step matches configured column names against
the CSV header exactly (case-sensitively).  When every configured column
appears verbatim in the header, the resulting table holds exactly the
configured columns (lowercased, in the file's column order), and every
value is the raw text of the cell with leading and trailing whitespace
trimmed; the headers are lowercased only after the selection. -/
theorem prepare_data_exact_match_characterization (loader : DataTableLoader)
    (fs : FileSystem) (s : DataFileSettings) (csv : CSVFile)
    (hfs : fs (loader.data_dir ++ "/" ++ s.file_name) = some csv)
    (hcols : ∀ c ∈ s.columns, c ∈ csv.header) :
    _prepare_data loader fs s = .ok (preparedFrame csv s.columns) ∧
    (preparedFrame csv s.columns).cols =
      (csv.header.filter (fun h => s.columns.contains h)).map strLower ∧
    (∀ c, c ∈ (preparedFrame csv s.columns).cols ↔
      ∃ c₀ ∈ s.columns, c = strLower c₀) ∧
    (preparedFrame csv s.columns).rows =
      csv.rows.map (fun r => (selectColumns csv.header s.columns r).map strTrim) := by
  refine ⟨prepare_data_ok loader fs s csv hfs hcols, rfl, ?_, rfl⟩
  intro c
  constructor
  · intro hmem
    simp only [preparedFrame, List.mem_map, List.mem_filter] at hmem
    obtain ⟨h, ⟨_, hcont⟩, rfl⟩ := hmem
    exact ⟨h, by simpa using hcont, rfl⟩
  · rintro ⟨c₀, hmem, rfl⟩
    simp only [preparedFrame, List.mem_map, List.mem_filter]
    exact ⟨c₀, ⟨hcols c₀ hmem, by simpa using hmem⟩, rfl⟩

/-- Witness for the amended C3 at the concrete fixture (header order B, A;
padded cells). -/
theorem prepare_data_exact_match_witness :
    fsC (loaderA.data_dir ++ "/" ++ sC.file_name) = some csvC ∧
    (∀ c ∈ sC.columns, c ∈ csvC.header) ∧
    (_prepare_data loaderA fsC sC = .ok (preparedFrame csvC sC.columns) ∧
     (preparedFrame csvC sC.columns).cols =
       (csvC.header.filter (fun h => sC.columns.contains h)).map strLower ∧
     (∀ c, c ∈ (preparedFrame csvC sC.columns).cols ↔
       ∃ c₀ ∈ sC.columns, c = strLower c₀) ∧
     (preparedFrame csvC sC.columns).rows =
       csvC.rows.map (fun r => (selectColumns csvC.header sC.columns r).map strTrim)) :=
  ⟨by decide, by decide,
   prepare_data_exact_match_characterization loaderA fsC sC csvC (by decide) (by decide)⟩

/-- C4: on the spatial path, load_table appends exactly one spatial insert
into table_name with crs EPSG:4326 and chunk size 10000, whose geometries
are the per-row pairs of the long_decimal and lat_decimal column values
(one per row), and whose attribute columns are the prepared columns with
the two raw coordinate columns removed. -/
theorem load_table_spatial_path (loader : DataTableLoader) (fs : FileSystem)
    (s : DataFileSettings) (csv : CSVFile)
    (hfs : fs (loader.data_dir ++ "/" ++ s.file_name) = some csv)
    (hcols : ∀ c ∈ s.columns, c ∈ csv.header)
    (hsp : s.is_spatial = true)
    (hlong : "long_decimal" ∈ (preparedFrame csv s.columns).cols)
    (hlat : "lat_decimal" ∈ (preparedFrame csv s.columns).cols)
    (hok : loader.engine.fails s.table_name = false) :
    load_table loader fs s = .ok
      ([LogEvent.inserting s.table_name,
        LogEvent.rowsInserted s.table_name csv.rows.length],
       [InsertOp.spatial s.table_name
          (dropColumns (preparedFrame csv s.columns) ["long_decimal", "lat_decimal"]).cols
          ((dropColumns (preparedFrame csv s.columns) ["long_decimal", "lat_decimal"]).rows.map
            (fun r => r.map Yaml.str))
          ((colValues (preparedFrame csv s.columns) "long_decimal").zip
            (colValues (preparedFrame csv s.columns) "lat_decimal"))
          "EPSG:4326" 10000]) ∧
    "long_decimal" ∉
      (dropColumns (preparedFrame csv s.columns) ["long_decimal", "lat_decimal"]).cols ∧
    "lat_decimal" ∉
      (dropColumns (preparedFrame csv s.columns) ["long_decimal", "lat_decimal"]).cols ∧
    ((colValues (preparedFrame csv s.columns) "long_decimal").zip
      (colValues (preparedFrame csv s.columns) "lat_decimal")).length = csv.rows.length ∧
    (dropColumns (preparedFrame csv s.columns) ["long_decimal", "lat_decimal"]).rows.length
      = csv.rows.length := by
  have hpre := prepare_data_ok loader fs s csv hfs hcols
  refine ⟨?_, ?_, ?_, ?_, ?_⟩
  · simp only [load_table, hpre, hsp, if_true]
    rw [_load_spatial_ok loader _ s hlong hlat hok]
    simp [preparedFrame]
  · simp [dropColumns, List.mem_filter]
  · simp [dropColumns, List.mem_filter]
  · simp [colValues, preparedFrame]
  · simp [dropColumns, preparedFrame]

/-- Witness for C4 at the concrete spatial fixture. -/
theorem load_table_spatial_path_witness :
    fsD (loaderA.data_dir ++ "/" ++ sD.file_name) = some csvD ∧
    (∀ c ∈ sD.columns, c ∈ csvD.header) ∧
    sD.is_spatial = true ∧
    "long_decimal" ∈ (preparedFrame csvD sD.columns).cols ∧
    "lat_decimal" ∈ (preparedFrame csvD sD.columns).cols ∧
    loaderA.engine.fails sD.table_name = false ∧
    (load_table loaderA fsD sD = .ok
      ([LogEvent.inserting sD.table_name,
        LogEvent.rowsInserted sD.table_name csvD.rows.length],
       [InsertOp.spatial sD.table_name
          (dropColumns (preparedFrame csvD sD.columns) ["long_decimal", "lat_decimal"]).cols
          ((dropColumns (preparedFrame csvD sD.columns) ["long_decimal", "lat_decimal"]).rows.map
            (fun r => r.map Yaml.str))
          ((colValues (preparedFrame csvD sD.columns) "long_decimal").zip
            (colValues (preparedFrame csvD sD.columns) "lat_decimal"))
          "EPSG:4326" 10000]) ∧
     "long_decimal" ∉
       (dropColumns (preparedFrame csvD sD.columns) ["long_decimal", "lat_decimal"]).cols ∧
     "lat_decimal" ∉
       (dropColumns (preparedFrame csvD sD.columns) ["long_decimal", "lat_decimal"]).cols ∧
     ((colValues (preparedFrame csvD sD.columns) "long_decimal").zip
       (colValues (preparedFrame csvD sD.columns) "lat_decimal")).length = csvD.rows.length ∧
     (dropColumns (preparedFrame csvD sD.columns) ["long_decimal", "lat_decimal"]).rows.length
       = csvD.rows.length) :=
  ⟨by decide, by decide, rfl, by decide, by decide, rfl,
   load_table_spatial_path loaderA fsD sD csvD (by decide) (by decide) rfl
     (by decide) (by decide) rfl⟩

/-- C5: load_table is not idempotent.  A successful call appends a delta
that depends only on the file and settings, so two calls in succession
append the file's rows to the destination table twice; when the file has at
least one data row, the table after the second call differs from the table
after the first (duplicate rows, not an unchanged table). -/
theorem load_table_not_idempotent (loader : DataTableLoader) (fs : FileSystem)
    (s : DataFileSettings) (csv : CSVFile) (st : List InsertOp)
    (hfs : fs (loader.data_dir ++ "/" ++ s.file_name) = some csv)
    (hcols : ∀ c ∈ s.columns, c ∈ csv.header)
    (hok : loader.engine.fails s.table_name = false)
    (hsp : s.is_spatial = true →
      "long_decimal" ∈ (preparedFrame csv s.columns).cols ∧
      "lat_decimal" ∈ (preparedFrame csv s.columns).cols) :
    ∃ d, load_table loader fs s = .ok d ∧
      (tableRows d.2 s.table_name).length = csv.rows.length ∧
      tableRows ((st ++ d.2) ++ d.2) s.table_name
        = tableRows st s.table_name ++ tableRows d.2 s.table_name
            ++ tableRows d.2 s.table_name ∧
      (csv.rows ≠ [] →
        tableRows ((st ++ d.2) ++ d.2) s.table_name
          ≠ tableRows (st ++ d.2) s.table_name) := by
  have hpre := prepare_data_ok loader fs s csv hfs hcols
  obtain ⟨d, hd, hlen⟩ : ∃ d, load_table loader fs s = .ok d ∧
      (tableRows d.2 s.table_name).length = csv.rows.length := by
    by_cases hb : s.is_spatial = true
    · obtain ⟨hlong, hlat⟩ := hsp hb
      refine ⟨_load_spatial loader (preparedFrame csv s.columns) s, ?_, ?_⟩
      · simp [load_table, hpre, hb]
      · rw [_load_spatial_ok loader _ s hlong hlat hok]
        simp [tableRows, dropColumns, preparedFrame]
    · refine ⟨_load_non_spatial loader (preparedFrame csv s.columns) s, ?_, ?_⟩
      · simp [load_table, hpre, hb]
      · rw [_load_non_spatial_ok loader _ s hok]
        simp [tableRows, preparedFrame]
  refine ⟨d, hd, hlen, by simp [tableRows_append], ?_⟩
  intro hne heq
  have hlength := congrArg List.length heq
  simp only [tableRows_append, List.length_append, hlen] at hlength
  exact hne (List.length_eq_zero.mp (by omega))

/-- Witness for C5 at the concrete non-spatial fixture with one data row. -/
theorem load_table_not_idempotent_witness :
    fsC (loaderA.data_dir ++ "/" ++ sC.file_name) = some csvC ∧
    (∀ c ∈ sC.columns, c ∈ csvC.header) ∧
    loaderA.engine.fails sC.table_name = false ∧
    csvC.rows ≠ [] ∧
    (∃ d, load_table loaderA fsC sC = .ok d ∧
      (tableRows d.2 sC.table_name).length = csvC.rows.length ∧
      tableRows (([] ++ d.2) ++ d.2) sC.table_name
        = tableRows [] sC.table_name ++ tableRows d.2 sC.table_name
            ++ tableRows d.2 sC.table_name ∧
      (csvC.rows ≠ [] →
        tableRows (([] ++ d.2) ++ d.2) sC.table_name
          ≠ tableRows ([] ++ d.2) sC.table_name)) :=
  ⟨by decide, by decide, rfl, by decide,
   load_table_not_idempotent loaderA fsC sC csvC [] (by decide) (by decide) rfl
     (by decide)⟩

/-- C7: a config whose content is unparsable, is missing a required field,
or has a wrong-typed field makes load_config fail with a validation error,
and in the orchestrated run no database engine is created (no engineCreated
event ever appears) when load_config has not succeeded. -/
theorem load_config_rejects_malformed (raw : Option Yaml)
    (h : configWellFormed raw = false) :
    (∃ e, load_config raw = .error e) ∧
    ∀ fs engFails, MainEvent.engineCreated ∉ (main raw fs engFails).1 := by
  cases hm : load_config raw with
  | ok cfg =>
    exfalso
    cases raw with
    | none => simp [load_config] at hm
    | some y =>
      have hwf := validateConfiguration_ok (by simpa [load_config] using hm)
      rw [hwf] at h
      cases h
  | error e =>
    refine ⟨⟨e, rfl⟩, ?_⟩
    intro fs engFails
    simp [main, hm]

/-- Witness for C7 at a concrete config missing nasr_db.password. -/
theorem load_config_rejects_malformed_witness :
    configWellFormed rawBad = false ∧
    ((∃ e, load_config rawBad = .error e) ∧
     ∀ fs engFails, MainEvent.engineCreated ∉ (main rawBad fs engFails).1) :=
  ⟨rfl, load_config_rejects_malformed rawBad rfl⟩

/-- C8: in every run that completes without an uncaught exception, the
orchestrator's event trace is exactly: configuration loaded, then the
engine created, then every dictionary table in config order, then the data
tables in the fixed hard-coded file-name order. -/
theorem main_sequential_order (raw : Option Yaml) (fs : FileSystem)
    (engFails : String → Bool)
    (h : (main raw fs engFails).2.2 = none) :
    ∃ cfg, load_config raw = .ok cfg ∧
      (main raw fs engFails).1 =
        MainEvent.configLoaded :: MainEvent.engineCreated ::
          (cfg.dict_tables.map (fun t => MainEvent.dictTableLoad t.name))
            ++ dataFileOrder.map MainEvent.dataTableLoad := by
  cases hm : load_config raw with
  | error e => simp [main, hm] at h
  | ok cfg =>
    refine ⟨cfg, rfl, ?_⟩
    have herr : (runDataTables (data_tables_lookup cfg.data_tables)
        { data_dir := cfg.data_dir, csv_settings := cfg.csv_settings,
          engine := { fails := engFails } } fs dataFileOrder).2.2.2 = none := by
      simpa [main, hm] using h
    have hev := runDataTables_ok_events (data_tables_lookup cfg.data_tables)
      { data_dir := cfg.data_dir, csv_settings := cfg.csv_settings,
        engine := { fails := engFails } } fs dataFileOrder herr
    simp [main, hm, hev]

/-- Witness for C8: a full successful run over all eleven data files. -/
theorem main_sequential_order_witness :
    (main rawGood fsAll efNone).2.2 = none ∧
    ∃ cfg, load_config rawGood = .ok cfg ∧
      (main rawGood fsAll efNone).1 =
        MainEvent.configLoaded :: MainEvent.engineCreated ::
          (cfg.dict_tables.map (fun t => MainEvent.dictTableLoad t.name))
            ++ dataFileOrder.map MainEvent.dataTableLoad :=
  ⟨rfl, main_sequential_order rawGood fsAll efNone rfl⟩

/-- C9: when the configuration's data_tables lack an entry for one of the
hard-coded file names, the run never completes normally: main aborts with
an uncaught exception, and when every other hard-coded file loads
successfully, that exception is precisely the KeyError for the missing
file name raised at its lookup. -/
theorem main_missing_data_table_aborts (raw : Option Yaml) (fs : FileSystem)
    (engFails : String → Bool) (cfg : Configuration) (f : String)
    (hcfg : load_config raw = .ok cfg)
    (hf : f ∈ dataFileOrder)
    (hmiss : data_tables_lookup cfg.data_tables f = none) :
    (∃ e, (main raw fs engFails).2.2 = some e) ∧
    ((∀ g ∈ dataFileOrder, g ≠ f →
        ∃ s, data_tables_lookup cfg.data_tables g = some s ∧
          ∃ d, load_table { data_dir := cfg.data_dir, csv_settings := cfg.csv_settings,
                            engine := { fails := engFails } } fs s = .ok d) →
      (main raw fs engFails).2.2 = some ("KeyError: " ++ f)) := by
  constructor
  · obtain ⟨e, he⟩ := runDataTables_missing (data_tables_lookup cfg.data_tables)
      { data_dir := cfg.data_dir, csv_settings := cfg.csv_settings,
        engine := { fails := engFails } } fs f dataFileOrder hf hmiss
    exact ⟨e, by simp [main, hcfg, he]⟩
  · intro hprev
    have hk := runDataTables_first_missing (data_tables_lookup cfg.data_tables)
      { data_dir := cfg.data_dir, csv_settings := cfg.csv_settings,
        engine := { fails := engFails } } fs f dataFileOrder hf hmiss hprev
    simp [main, hcfg, hk]

/-- Witness for C9 at a concrete config lacking FIX_CHRT.csv. -/
theorem main_missing_data_table_aborts_witness :
    load_config rawMissing = .ok cfgMissing ∧
    "FIX_CHRT.csv" ∈ dataFileOrder ∧
    data_tables_lookup cfgMissing.data_tables "FIX_CHRT.csv" = none ∧
    ((∃ e, (main rawMissing fsAll efNone).2.2 = some e) ∧
     ((∀ g ∈ dataFileOrder, g ≠ "FIX_CHRT.csv" →
         ∃ s, data_tables_lookup cfgMissing.data_tables g = some s ∧
           ∃ d, load_table { data_dir := cfgMissing.data_dir,
                             csv_settings := cfgMissing.csv_settings,
                             engine := { fails := efNone } } fsAll s = .ok d) →
       (main rawMissing fsAll efNone).2.2 = some ("KeyError: " ++ "FIX_CHRT.csv"))) :=
  ⟨rfl, by decide, by decide,
   main_missing_data_table_aborts rawMissing fsAll efNone cfgMissing "FIX_CHRT.csv"
     rfl (by decide) (by decide)⟩

end LoadNasrData
